import Mathlib

/-!
Verification of the GCP KMS RSA-PSS provider
(`src/lib/gcp/GcpKmsRsaPssProvider.ts` and
`src/lib/gcp/GcpKmsRsaPssPrivateKey.ts`).

Shallow embedding conventions:
- byte buffers are `List Nat` (each entry one octet);
- the CRC32C collaborator (external package `fast-crc32c`) is an arbitrary
  pure function `crc : List Nat → Nat`, as the spec's checksum contract says;
- the KMS transport client is an oracle: `asymmetricSign` maps a request to
  a result, `getPublicKey` maps the attempt index (0-based) to a result;
- a thrown GCP service error is `ServiceError`, a thrown `KmsError` is the
  structure of the same name; promises that may throw become `Except`;
- each operation additionally reports how many remote calls it performed
  (and, for public-key retrieval, which sleeps it executed), so that the
  "no remote call" and "exactly one retry" properties are statable.
-/

namespace KmsJs

/-- A single violation inside a structured GCP error detail
(shape consumed by `isKeyPendingCreation`). -/
structure Violation where
  type : String
  deriving DecidableEq

/-- One entry of a GCP error's `statusDetails` list. -/
structure StatusDetail where
  violations : List Violation
  deriving DecidableEq

/-- A GCP service-level error as observed by this provider: only its
`statusDetails` field is ever inspected (absent details model as `[]`). -/
structure ServiceError where
  statusDetails : List StatusDetail
  deriving DecidableEq

/-- Modelled from the spec: `KmsError` (class not under `src/`) is the
subsystem's single error kind, carrying a human-readable message and,
where applicable, the wrapped underlying cause. -/
structure KmsError where
  message : String
  cause : Option ServiceError
  deriving DecidableEq

/-- Modelled from the spec: `wrapGCPCallError` (in `kmsUtils`, not under
`src/`) wraps any transport/service-level failure into the system's single
error kind with a fixed descriptive prefix, preserving the underlying
cause for diagnostics. -/
def wrapGCPCallError {α : Type} (result : Except ServiceError α)
    (errorMessage : String) : Except KmsError α :=
  match result with
  | Except.ok a => Except.ok a
  | Except.error e => Except.error ⟨errorMessage, some e⟩

/-- Modelled from the spec: `bufferToArrayBuffer` (in `utils/buffer`, not
under `src/`) is pure representation-conversion glue; on octet contents it
is the identity. -/
def bufferToArrayBuffer (buffer : List Nat) : List Nat := buffer

/-- The remote key handle `GcpKmsRsaPssPrivateKey`: an immutable value with
the key-version path, the hashing algorithm, and the provider
back-reference (modelled as an opaque identifier, since the handle never
inspects it). -/
structure GcpKmsRsaPssPrivateKey where
  kmsKeyVersionPath : String
  hashingAlgorithm : String
  provider : Nat
  deriving DecidableEq

/-- A WebCrypto `CryptoKey` as seen by `onSign`/`onExportKey`: either a
`GcpKmsRsaPssPrivateKey` instance or some other key, of which only the
constructor name is ever read (for the error message). -/
inductive CryptoKey where
  | gcpKmsRsaPss (key : GcpKmsRsaPssPrivateKey)
  | other (constructorName : String)
  deriving DecidableEq

/-- The `RsaPssParams` algorithm object: only `saltLength` is read. -/
structure RsaPssParams where
  saltLength : Nat
  deriving DecidableEq

/-- The WebCrypto `KeyFormat` union type. -/
inductive KeyFormat where
  | jwk
  | pkcs8
  | raw
  | spki
  deriving DecidableEq

/-- `SUPPORTED_SALT_LENGTHS`: the salt lengths for SHA-256 and SHA-512. -/
def SUPPORTED_SALT_LENGTHS : List Nat := [256 / 8, 512 / 8]

/-- The request sent by `kmsClient.asymmetricSign`. -/
structure SignRequest where
  data : List Nat
  dataCrc32c : Nat
  name : String
  deriving DecidableEq

/-- The response of `kmsClient.asymmetricSign` as read by `kmsSign`:
echoed key path, the verified-plaintext-checksum flag, the signature
bytes, and the checksum the service reports for them. -/
structure SignResponse where
  name : String
  verifiedDataCrc32c : Bool
  signature : List Nat
  signatureCrc32c : Nat
  deriving DecidableEq

/-- The sign request `kmsSign` issues: the plaintext, its locally computed
CRC32C, and the handle's key-version path passed verbatim. -/
def mkSignRequest (crc : List Nat → Nat) (plaintext : List Nat)
    (key : GcpKmsRsaPssPrivateKey) : SignRequest :=
  { data := plaintext, dataCrc32c := crc plaintext,
    name := key.kmsKeyVersionPath }

/-- The private `kmsSign` method: one remote call, then the three
integrity checks, then the signature bytes unmodified. The second
component is the number of `asymmetricSign` invocations (always 1). -/
def kmsSign (crc : List Nat → Nat)
    (asymmetricSign : SignRequest → Except ServiceError SignResponse)
    (plaintext : List Nat) (key : GcpKmsRsaPssPrivateKey) :
    Except KmsError (List Nat) × Nat :=
  match wrapGCPCallError (asymmetricSign (mkSignRequest crc plaintext key))
      "KMS signature request failed" with
  | Except.error e => (Except.error e, 1)
  | Except.ok response =>
    if response.name ≠ key.kmsKeyVersionPath then
      (Except.error ⟨"KMS used the wrong key version (" ++ response.name ++ ")",
        none⟩, 1)
    else if response.verifiedDataCrc32c = false then
      (Except.error ⟨"KMS failed to verify plaintext CRC32C checksum", none⟩, 1)
    else if crc response.signature ≠ response.signatureCrc32c then
      (Except.error
        ⟨"Signature CRC32C checksum does not match one received from KMS",
          none⟩, 1)
    else
      (Except.ok (bufferToArrayBuffer response.signature), 1)

/-- Error message of `onSign` for a key that is not a
`GcpKmsRsaPssPrivateKey` instance. -/
def unsupportedKeyTypeMsg (constructorName : String) : String :=
  "Cannot sign with key of unsupported type (" ++ constructorName ++ ")"

/-- Error message of `onSign` for a salt length outside
`SUPPORTED_SALT_LENGTHS`. -/
def unsupportedSaltMsg (saltLength : Nat) : String :=
  "Unsupported salt length of " ++ toString saltLength ++ " octets"

/-- `onSign`: key-type check, then salt-length check, then `kmsSign`.
The second component counts `asymmetricSign` invocations. -/
def onSign (crc : List Nat → Nat)
    (asymmetricSign : SignRequest → Except ServiceError SignResponse)
    (algorithm : RsaPssParams) (key : CryptoKey) (data : List Nat) :
    Except KmsError (List Nat) × Nat :=
  match key with
  | CryptoKey.other constructorName =>
    (Except.error ⟨unsupportedKeyTypeMsg constructorName, none⟩, 0)
  | CryptoKey.gcpKmsRsaPss k =>
    if SUPPORTED_SALT_LENGTHS.contains algorithm.saltLength = false then
      (Except.error ⟨unsupportedSaltMsg algorithm.saltLength, none⟩, 0)
    else
      kmsSign crc asymmetricSign data k

/-- `isKeyPendingCreation`: scans the error's `statusDetails` for a detail
holding at least one violation of type `KEY_PENDING_GENERATION`. -/
def isKeyPendingCreation (err : ServiceError) : Bool :=
  let pendingCreationViolations := err.statusDetails.filter
    (fun d => decide
      (0 < (d.violations.filter
        (fun v => v.type == "KEY_PENDING_GENERATION")).length))
  decide (0 < pendingCreationViolations.length)

/-- Character class of the regex fragment `[\w ]` (JS `\w` is
`[A-Za-z0-9_]`). -/
def isWordOrSpace (c : Char) : Bool :=
  c.isAlphanum || c == '_' || c == ' '

/-- The five-dash delimiter of a PEM framing marker. -/
def dashes : List Char := ['-', '-', '-', '-', '-']

/-- Length matched at the head of `s` by the regex alternative
`-----[\w ]*-----`, if it matches there. Because a dash is outside
`[\w ]`, the greedy star is deterministic: take the maximal `[\w ]` run,
then require five dashes. -/
def pemMarkerLen (s : List Char) : Option Nat :=
  if s.take 5 = dashes then
    let body := (s.drop 5).takeWhile isWordOrSpace
    let rest := (s.drop 5).dropWhile isWordOrSpace
    if rest.take 5 = dashes then some (5 + body.length + 5) else none
  else none

/-- Global replacement of `/(-----[\w ]*-----|\n)/g` by the empty string,
scanning left to right as the JS engine does. `fuel` bounds recursion
(every step consumes at least one character, so `s.length` is enough). -/
def stripFramingAux : Nat → List Char → List Char
  | 0, _ => []
  | _ + 1, [] => []
  | fuel + 1, c :: rest =>
    match pemMarkerLen (c :: rest) with
    | some n => stripFramingAux fuel ((c :: rest).drop n)
    | none =>
      if c = '\n' then stripFramingAux fuel rest
      else c :: stripFramingAux fuel rest

/-- `replace(/(-----[\w ]*-----|\n)/g, '')` on a character list. -/
def stripFraming (s : List Char) : List Char :=
  stripFramingAux s.length s

/-- Modelled from the spec: base64 value of one character of
`Buffer.from(-, 'base64')` (an external Node primitive), standard
alphabet; any other character (including `=` padding) is skipped. -/
def b64Val (c : Char) : Option Nat :=
  if 'A' ≤ c ∧ c ≤ 'Z' then some (c.toNat - 'A'.toNat)
  else if 'a' ≤ c ∧ c ≤ 'z' then some (c.toNat - 'a'.toNat + 26)
  else if '0' ≤ c ∧ c ≤ '9' then some (c.toNat - '0'.toNat + 52)
  else if c = '+' then some 62
  else if c = '/' then some 63
  else none

/-- Modelled from the spec: packs 6-bit base64 values into octets; a
trailing group of 3 (resp. 2) values yields 2 (resp. 1) octets, a lone
trailing value is dropped, as Node's decoder does. -/
def sextetsToBytes : List Nat → List Nat
  | a :: b :: c :: d :: rest =>
    (a * 4 + b / 16) :: ((b % 16) * 16 + c / 4) :: ((c % 4) * 64 + d)
      :: sextetsToBytes rest
  | [a, b, c] => [a * 4 + b / 16, (b % 16) * 16 + c / 4]
  | [a, b] => [a * 4 + b / 16]
  | _ => []

/-- Modelled from the spec: `Buffer.from(s, 'base64')`, the direct base64
decoding of a string. -/
def base64decode (s : String) : List Nat :=
  sextetsToBytes (s.data.filterMap b64Val)

/-- `pemToDer`: strip the framing markers and newlines, base64-decode the
remainder. -/
def pemToDer (pemBuffer : String) : List Nat :=
  let oneliner : String := String.mk (stripFraming pemBuffer.data)
  base64decode oneliner

/-- Outcome of `retrieveWhenReady`: the final result, the number of
`getPublicKey` attempts performed, and the sleeps (ms) executed. -/
structure RetrievalTrace where
  result : Except ServiceError String
  attempts : Nat
  sleeps : List Nat

/-- The inner closure `retrieveWhenReady` of `retrieveKMSPublicKey`: one
attempt; on an error classified as pending key generation, sleep 500 ms
and make exactly one more attempt, whose outcome is final either way; any
other first-attempt error is rethrown at once. The oracle `getPublicKey`
maps the 0-based attempt index to that call's outcome. -/
def retrieveWhenReady (getPublicKey : Nat → Except ServiceError String) :
    RetrievalTrace :=
  match getPublicKey 0 with
  | Except.ok key => ⟨Except.ok key, 1, []⟩
  | Except.error err =>
    if isKeyPendingCreation err = false then
      ⟨Except.error err, 1, []⟩
    else
      match getPublicKey 1 with
      | Except.ok key => ⟨Except.ok key, 2, [500]⟩
      | Except.error e2 => ⟨Except.error e2, 2, [500]⟩

/-- `retrieveKMSPublicKey`: run `retrieveWhenReady`, wrap any escaping
service error with the fixed prefix, and convert the PEM to DER. The
second component is the attempt/sleep trace. -/
def retrieveKMSPublicKey (getPublicKey : Nat → Except ServiceError String) :
    Except KmsError (List Nat) × RetrievalTrace :=
  let trace := retrieveWhenReady getPublicKey
  match wrapGCPCallError trace.result "Failed to retrieve public key" with
  | Except.error e => (Except.error e, trace)
  | Except.ok publicKeyPEM =>
    (Except.ok (bufferToArrayBuffer (pemToDer publicKeyPEM)), trace)

/-- `onExportKey`: format check, then key-type check, then public-key
retrieval at the handle's key-version path. The oracle takes the requested
path and the attempt index; the second component counts `getPublicKey`
invocations. -/
def onExportKey (getPublicKey : String → Nat → Except ServiceError String)
    (format : KeyFormat) (key : CryptoKey) :
    Except KmsError (List Nat) × Nat :=
  if format ≠ KeyFormat.spki then
    (Except.error ⟨"Private key cannot be exported", none⟩, 0)
  else
    match key with
    | CryptoKey.other _ =>
      (Except.error ⟨"Key is not managed by KMS", none⟩, 0)
    | CryptoKey.gcpKmsRsaPss k =>
      let r := retrieveKMSPublicKey (getPublicKey k.kmsKeyVersionPath)
      (r.1, r.2.attempts)

/-- `onGenerateKey`: always throws, zero remote calls. -/
def onGenerateKey : Except KmsError (CryptoKey × CryptoKey) × Nat :=
  (Except.error ⟨"Key generation is unsupported", none⟩, 0)

/-- `onImportKey`: always throws, zero remote calls. -/
def onImportKey : Except KmsError CryptoKey × Nat :=
  (Except.error ⟨"Key import is unsupported", none⟩, 0)

/-- `onVerify`: always throws, zero remote calls. -/
def onVerify : Except KmsError Bool × Nat :=
  (Except.error ⟨"Signature verification is unsupported", none⟩, 0)

/-- Claim C1: for every sign call with a remote key handle and a supported
salt length (32 or 64 octets), if the remote response echoes the requested
key path, reports the verified-plaintext-checksum flag as true, and
reports a signature checksum equal to the CRC32C the provider computes
locally over the returned signature bytes, then sign succeeds and returns
exactly those signature bytes, unmodified. -/
theorem sign_success_returns_signature
    (crc : List Nat → Nat)
    (asymmetricSign : SignRequest → Except ServiceError SignResponse)
    (algorithm : RsaPssParams) (key : GcpKmsRsaPssPrivateKey)
    (data : List Nat) (response : SignResponse)
    (hsalt : algorithm.saltLength = 32 ∨ algorithm.saltLength = 64)
    (hcall : asymmetricSign (mkSignRequest crc data key) = Except.ok response)
    (hname : response.name = key.kmsKeyVersionPath)
    (hflag : response.verifiedDataCrc32c = true)
    (hcrc : crc response.signature = response.signatureCrc32c) :
    onSign crc asymmetricSign algorithm (CryptoKey.gcpKmsRsaPss key) data
      = (Except.ok response.signature, 1) := by
  have hmem : algorithm.saltLength ∈ SUPPORTED_SALT_LENGTHS := by
    rcases hsalt with h | h <;> simp [SUPPORTED_SALT_LENGTHS, h]
  simp [onSign, hmem, kmsSign, wrapGCPCallError, hcall, hname, hflag, hcrc,
    bufferToArrayBuffer]

/-- Witness for C1 at a concrete exchange. -/
theorem sign_success_returns_signature_witness :
    onSign (fun l => l.length)
      (fun _ => Except.ok ⟨"projects/p/cryptoKeyVersions/1", true, [1, 2, 3], 3⟩)
      ⟨32⟩
      (CryptoKey.gcpKmsRsaPss ⟨"projects/p/cryptoKeyVersions/1", "SHA-256", 0⟩)
      [9]
      = (Except.ok [1, 2, 3], 1) :=
  sign_success_returns_signature _ _ _ _ _ _ (Or.inl rfl) rfl rfl rfl rfl

/-- Claim C2: for every sign exchange, if any one of the three integrity
assertions fails — echoed key path differs, the verified-plaintext flag is
false, or the locally computed CRC32C of the returned signature differs
from the reported checksum — then sign fails (after the single remote
call) and no signature is returned. -/
theorem sign_integrity_check_failure_fatal
    (crc : List Nat → Nat)
    (asymmetricSign : SignRequest → Except ServiceError SignResponse)
    (algorithm : RsaPssParams) (key : GcpKmsRsaPssPrivateKey)
    (data : List Nat) (response : SignResponse)
    (hsalt : SUPPORTED_SALT_LENGTHS.contains algorithm.saltLength = true)
    (hcall : asymmetricSign (mkSignRequest crc data key) = Except.ok response)
    (hbad : response.name ≠ key.kmsKeyVersionPath
      ∨ response.verifiedDataCrc32c = false
      ∨ crc response.signature ≠ response.signatureCrc32c) :
    ∃ e : KmsError,
      onSign crc asymmetricSign algorithm (CryptoKey.gcpKmsRsaPss key) data
        = (Except.error e, 1) := by
  have hmem : algorithm.saltLength ∈ SUPPORTED_SALT_LENGTHS := by
    simpa using hsalt
  by_cases h1 : response.name = key.kmsKeyVersionPath
  · by_cases h2 : response.verifiedDataCrc32c = false
    · exact ⟨⟨"KMS failed to verify plaintext CRC32C checksum", none⟩, by
        simp [onSign, hmem, kmsSign, wrapGCPCallError, hcall, h1, h2]⟩
    · by_cases h3 : crc response.signature = response.signatureCrc32c
      · rcases hbad with hb | hb | hb
        · exact absurd h1 hb
        · exact absurd hb h2
        · exact absurd h3 hb
      · exact
          ⟨⟨"Signature CRC32C checksum does not match one received from KMS",
              none⟩, by
            simp [onSign, hmem, kmsSign, wrapGCPCallError, hcall, h1, h2, h3]⟩
  · exact ⟨⟨"KMS used the wrong key version (" ++ response.name ++ ")", none⟩,
      by simp [onSign, hmem, kmsSign, wrapGCPCallError, hcall, h1]⟩

/-- Witness for C2: a response whose verified-checksum flag is false. -/
theorem sign_integrity_check_failure_fatal_witness :
    ∃ e : KmsError,
      onSign (fun l => l.length)
        (fun _ => Except.ok ⟨"path1", false, [1], 1⟩)
        ⟨64⟩ (CryptoKey.gcpKmsRsaPss ⟨"path1", "SHA-512", 0⟩) []
        = (Except.error e, 1) :=
  sign_integrity_check_failure_fatal _ _ _ _ _ _ rfl rfl
    (Or.inr (Or.inl rfl))

/-- Claim C3: for every sign call on a remote key handle whose algorithm's
salt length is neither 32 nor 64 octets, sign fails with the
unsupported-salt-length error and performs zero remote sign invocations. -/
theorem sign_unsupported_salt_no_remote_call
    (crc : List Nat → Nat)
    (asymmetricSign : SignRequest → Except ServiceError SignResponse)
    (algorithm : RsaPssParams) (key : GcpKmsRsaPssPrivateKey)
    (data : List Nat)
    (hsalt : algorithm.saltLength ≠ 32 ∧ algorithm.saltLength ≠ 64) :
    onSign crc asymmetricSign algorithm (CryptoKey.gcpKmsRsaPss key) data
      = (Except.error ⟨unsupportedSaltMsg algorithm.saltLength, none⟩, 0) := by
  have hnm : algorithm.saltLength ∉ SUPPORTED_SALT_LENGTHS := by
    simp [SUPPORTED_SALT_LENGTHS]
    omega
  simp [onSign, hnm]

/-- Witness for C3 at salt length 20. -/
theorem sign_unsupported_salt_no_remote_call_witness :
    onSign (fun l => l.length) (fun _ => Except.ok ⟨"p", true, [], 0⟩)
      ⟨20⟩ (CryptoKey.gcpKmsRsaPss ⟨"p", "SHA-256", 0⟩) []
      = (Except.error ⟨unsupportedSaltMsg 20, none⟩, 0) :=
  sign_unsupported_salt_no_remote_call _ _ _ _ _ ⟨by decide, by decide⟩

/-- Claim C4: public-key retrieval makes at most two attempts; a successful
first attempt ends at once; a first failure classified as pending key
generation leads to a 500 ms sleep and exactly one further attempt whose
outcome (success or any failure) is final; any other first failure is
terminal with no retry. -/
theorem export_retry_exactly_once_on_pending
    (getPublicKey : Nat → Except ServiceError String) :
    (retrieveWhenReady getPublicKey).attempts ≤ 2
    ∧ (∀ pem, getPublicKey 0 = Except.ok pem →
        retrieveWhenReady getPublicKey = ⟨Except.ok pem, 1, []⟩)
    ∧ (∀ err, getPublicKey 0 = Except.error err →
        isKeyPendingCreation err = true →
        retrieveWhenReady getPublicKey = ⟨getPublicKey 1, 2, [500]⟩)
    ∧ (∀ err, getPublicKey 0 = Except.error err →
        isKeyPendingCreation err = false →
        retrieveWhenReady getPublicKey = ⟨Except.error err, 1, []⟩) := by
  refine ⟨?_, ?_, ?_, ?_⟩
  · unfold retrieveWhenReady
    rcases h0 : getPublicKey 0 with err | pem
    · by_cases hp : isKeyPendingCreation err = false
      · simp [hp]
      · rcases h1 : getPublicKey 1 with e2 | pem2 <;> simp [hp, h1]
    · simp
  · intro pem h0
    simp [retrieveWhenReady, h0]
  · intro err h0 hp
    simp [retrieveWhenReady, h0, hp]
    rcases h1 : getPublicKey 1 with e2 | pem2 <;> simp [h1]
  · intro err h0 hp
    simp [retrieveWhenReady, h0, hp]

/-- Witness for C4: first attempt pending, second succeeds. -/
theorem export_retry_exactly_once_on_pending_witness :
    retrieveWhenReady
      (fun n => if n = 0
        then Except.error ⟨[⟨[⟨"KEY_PENDING_GENERATION"⟩]⟩]⟩
        else Except.ok "pem")
      = ⟨(fun n => if n = 0
          then Except.error ⟨[⟨[⟨"KEY_PENDING_GENERATION"⟩]⟩]⟩
          else Except.ok "pem") 1, 2, [500]⟩ :=
  (export_retry_exactly_once_on_pending _).2.2.1 _ rfl rfl

/-- Claim C5: generate, import, and verify always fail, unconditionally
and with zero remote calls. -/
theorem unsupported_operations_always_fail :
    onGenerateKey = (Except.error ⟨"Key generation is unsupported", none⟩, 0)
    ∧ onImportKey = (Except.error ⟨"Key import is unsupported", none⟩, 0)
    ∧ onVerify
      = (Except.error ⟨"Signature verification is unsupported", none⟩, 0) :=
  ⟨rfl, rfl, rfl⟩

/-- Claim C6: export with a non-spki format fails with zero remote calls;
export of a key that is not a remote key handle fails with zero remote
calls; otherwise export returns exactly the outcome (and attempt count) of
the remote public-key retrieval at the handle's key path. -/
theorem export_contract
    (getPublicKey : String → Nat → Except ServiceError String) :
    (∀ format key, format ≠ KeyFormat.spki →
      onExportKey getPublicKey format key
        = (Except.error ⟨"Private key cannot be exported", none⟩, 0))
    ∧ (∀ constructorName,
        onExportKey getPublicKey KeyFormat.spki
            (CryptoKey.other constructorName)
          = (Except.error ⟨"Key is not managed by KMS", none⟩, 0))
    ∧ (∀ k, onExportKey getPublicKey KeyFormat.spki (CryptoKey.gcpKmsRsaPss k)
        = ((retrieveKMSPublicKey (getPublicKey k.kmsKeyVersionPath)).1,
          (retrieveKMSPublicKey (getPublicKey k.kmsKeyVersionPath)).2.attempts)) := by
  refine ⟨?_, ?_, ?_⟩
  · intro format key h
    simp [onExportKey, h]
  · intro constructorName
    simp [onExportKey]
  · intro k
    simp [onExportKey]

/-- Witness for C6: a raw-format export fails without any remote call. -/
theorem export_contract_witness :
    onExportKey (fun _ _ => Except.ok "pem") KeyFormat.raw
      (CryptoKey.other "CryptoKey")
      = (Except.error ⟨"Private key cannot be exported", none⟩, 0) :=
  (export_contract _).1 _ _ (by decide)

/-- Claim C7: every transport/service-level failure of sign or export
surfaces as the single `KmsError` kind carrying the fixed human-readable
message and the wrapped underlying cause; nothing is swallowed. -/
theorem failures_surface_as_kms_error
    (crc : List Nat → Nat)
    (asymmetricSign : SignRequest → Except ServiceError SignResponse)
    (getPublicKey : Nat → Except ServiceError String) :
    (∀ algorithm key data e,
      SUPPORTED_SALT_LENGTHS.contains algorithm.saltLength = true →
      asymmetricSign (mkSignRequest crc data key) = Except.error e →
      onSign crc asymmetricSign algorithm (CryptoKey.gcpKmsRsaPss key) data
        = (Except.error ⟨"KMS signature request failed", some e⟩, 1))
    ∧ (∀ e, (retrieveWhenReady getPublicKey).result = Except.error e →
      (retrieveKMSPublicKey getPublicKey).1
        = Except.error ⟨"Failed to retrieve public key", some e⟩) := by
  constructor
  · intro algorithm key data e hsalt hcall
    have hmem : algorithm.saltLength ∈ SUPPORTED_SALT_LENGTHS := by
      simpa using hsalt
    simp [onSign, hmem, kmsSign, wrapGCPCallError, hcall]
  · intro e he
    simp [retrieveKMSPublicKey, wrapGCPCallError, he]

/-- Witness for C7: a failing sign transport call surfaces wrapped. -/
theorem failures_surface_as_kms_error_witness :
    onSign (fun l => l.length) (fun _ => Except.error ⟨[]⟩) ⟨32⟩
      (CryptoKey.gcpKmsRsaPss ⟨"p", "SHA-256", 0⟩) []
      = (Except.error ⟨"KMS signature request failed", some ⟨[]⟩⟩, 1) :=
  (failures_surface_as_kms_error _ _ (fun _ => Except.ok "pem")).1 _ _ _ _
    rfl rfl

/-- Claim C8: PEM-to-binary decoding strips the framing markers and
newlines and base64-decodes the remainder; in particular on
`-----BEGIN PUBLIC KEY-----\nAAA=\n-----END PUBLIC KEY-----` it equals
the direct base64 decoding of `AAA=`. -/
theorem pemToDer_strips_framing_and_base64_decodes :
    stripFraming
        "-----BEGIN PUBLIC KEY-----\nAAA=\n-----END PUBLIC KEY-----".data
      = "AAA=".data
    ∧ pemToDer "-----BEGIN PUBLIC KEY-----\nAAA=\n-----END PUBLIC KEY-----"
      = base64decode "AAA=" := by
  constructor <;> decide

/-- Claim C9: a remote key handle is immutable (a pure value in this
embedding) and its key-version path alone determines the behaviour of
sign and export: the path is placed verbatim in the sign request, and two
handles with the same path (whatever their hash algorithm or provider
back-reference) yield identical sign and export outcomes. -/
theorem handle_immutable_path_determines
    (crc : List Nat → Nat)
    (asymmetricSign : SignRequest → Except ServiceError SignResponse)
    (getPublicKey : String → Nat → Except ServiceError String)
    (algorithm : RsaPssParams) (data : List Nat)
    (k k' : GcpKmsRsaPssPrivateKey)
    (hpath : k.kmsKeyVersionPath = k'.kmsKeyVersionPath) :
    (mkSignRequest crc data k).name = k.kmsKeyVersionPath
    ∧ onSign crc asymmetricSign algorithm (CryptoKey.gcpKmsRsaPss k) data
        = onSign crc asymmetricSign algorithm (CryptoKey.gcpKmsRsaPss k') data
    ∧ onExportKey getPublicKey KeyFormat.spki (CryptoKey.gcpKmsRsaPss k)
        = onExportKey getPublicKey KeyFormat.spki (CryptoKey.gcpKmsRsaPss k') := by
  refine ⟨rfl, ?_, ?_⟩
  · simp [onSign, kmsSign, mkSignRequest, hpath]
  · simp [onExportKey, hpath]

/-- Witness for C9: two handles sharing a path but differing in hash
algorithm and provider reference behave identically. -/
theorem handle_immutable_path_determines_witness :
    (mkSignRequest (fun l => l.length) [1] ⟨"p", "SHA-256", 0⟩).name = "p"
    ∧ onSign (fun l => l.length) (fun _ => Except.ok ⟨"p", true, [], 0⟩) ⟨32⟩
        (CryptoKey.gcpKmsRsaPss ⟨"p", "SHA-256", 0⟩) [1]
        = onSign (fun l => l.length) (fun _ => Except.ok ⟨"p", true, [], 0⟩) ⟨32⟩
          (CryptoKey.gcpKmsRsaPss ⟨"p", "SHA-512", 1⟩) [1]
    ∧ onExportKey (fun _ _ => Except.ok "pem") KeyFormat.spki
        (CryptoKey.gcpKmsRsaPss ⟨"p", "SHA-256", 0⟩)
        = onExportKey (fun _ _ => Except.ok "pem") KeyFormat.spki
          (CryptoKey.gcpKmsRsaPss ⟨"p", "SHA-512", 1⟩) :=
  handle_immutable_path_determines _ _ _ _ _ _ _ rfl

/-- The unsupported-key-type message can never coincide with the
unsupported-salt-length message (their first characters differ). -/
theorem typeMsg_ne_saltMsg (constructorName : String) (saltLength : Nat) :
    unsupportedKeyTypeMsg constructorName ≠ unsupportedSaltMsg saltLength := by
  intro h
  have h2 := congrArg String.data h
  have h3 := congrArg List.head? h2
  simp only [unsupportedKeyTypeMsg, unsupportedSaltMsg,
    String.data_append] at h3
  revert h3
  simp

/-- Claim C10: the key-type check precedes the salt-length check: any
non-handle key is rejected with the unsupported-key-type error and zero
remote calls, whatever the salt length; and an unsupported-salt-length
error can only arise for a genuine remote key handle. -/
theorem key_type_check_precedes_salt_check
    (crc : List Nat → Nat)
    (asymmetricSign : SignRequest → Except ServiceError SignResponse)
    (data : List Nat) :
    (∀ algorithm constructorName,
      onSign crc asymmetricSign algorithm (CryptoKey.other constructorName)
          data
        = (Except.error ⟨unsupportedKeyTypeMsg constructorName, none⟩, 0))
    ∧ (∀ algorithm key e,
      (onSign crc asymmetricSign algorithm key data).1 = Except.error e →
      e.message = unsupportedSaltMsg algorithm.saltLength →
      ∃ k, key = CryptoKey.gcpKmsRsaPss k) := by
  constructor
  · intro algorithm constructorName
    simp [onSign]
  · intro algorithm key e h1 h2
    cases key with
    | gcpKmsRsaPss k => exact ⟨k, rfl⟩
    | other constructorName =>
      simp [onSign] at h1
      rw [← h1] at h2
      exact absurd h2 (typeMsg_ne_saltMsg constructorName algorithm.saltLength)

/-- Witness for C10: a salt-length error observed on a handle key. -/
theorem key_type_check_precedes_salt_check_witness :
    onSign (fun l => l.length) (fun _ => Except.ok ⟨"p", true, [], 0⟩) ⟨20⟩
      (CryptoKey.other "PrivateKey") []
      = (Except.error ⟨unsupportedKeyTypeMsg "PrivateKey", none⟩, 0)
    ∧ ∃ k, (CryptoKey.gcpKmsRsaPss ⟨"p", "SHA-256", 0⟩)
        = CryptoKey.gcpKmsRsaPss k :=
  ⟨(key_type_check_precedes_salt_check _ _ _).1 _ _,
    (key_type_check_precedes_salt_check (fun l => l.length)
        (fun _ => Except.ok ⟨"p", true, [], 0⟩) []).2 ⟨20⟩
      (CryptoKey.gcpKmsRsaPss ⟨"p", "SHA-256", 0⟩)
      ⟨unsupportedSaltMsg 20, none⟩ rfl rfl⟩

end KmsJs
